import Mathlib

/-!
Verification of the statistics acquisition and delta-computation engine of the
waymon status-bar application, as a shallow embedding of the Rust sources
(src/waymon/src/read.rs, stats.rs and the five collectors) into Lean.

Strings are modelled as their character lists (`String.data`); Rust `u64`/`u32`
values are modelled as `Nat` with the parse functions enforcing the `< 2^64`
(resp. `< 2^32`) bound exactly where Rust's `str::parse` rejects overflow.
`Instant`/`Duration` are modelled as `Nat`; Rust's `Instant` subtraction
saturates at zero, matching `Nat` subtraction.  `HashMap` is modelled as an
association list whose `insert` overwrites the existing key (last write wins).
Fallible Rust functions returning `Result` are modelled with `Except`;
functions that mutate `&mut self` and may fail halfway return the
(possibly partially updated) state together with an optional error, matching
the source's in-place assignment order statement by statement.
-/

namespace Waymon

/-! ### Character-list utilities mirroring the Rust `str` methods used -/

/-- Rust `str::split(c)`: splits at every occurrence of `c`, keeping empty
pieces (n separators give n+1 pieces). -/
def splitChar (c : Char) : List Char → List (List Char)
  | [] => [[]]
  | x :: xs =>
    if x = c then [] :: splitChar c xs
    else
      match splitChar c xs with
      | ys :: rest => (x :: ys) :: rest
      | [] => [[x]]

/-- Rust `str::strip_prefix(p)`: `some` of the remainder when `p` is a prefix. -/
def stripPre : List Char → List Char → Option (List Char)
  | [], s => some s
  | _ :: _, [] => none
  | p :: ps, c :: cs => if c = p then stripPre ps cs else none

/-- Rust `str::strip_suffix(p)`: `some` of the front when `p` is a suffix. -/
def stripSuf (p s : List Char) : Option (List Char) :=
  if p.length ≤ s.length ∧ s.drop (s.length - p.length) = p then
    some (s.take (s.length - p.length))
  else none

/-- Rust `str::trim_start()` (whitespace removal from the front). -/
def trimStartC (s : List Char) : List Char := s.dropWhile Char.isWhitespace

/-- Rust `str::split_once(c)`: splits at the first occurrence of `c`. -/
def splitOnceC (c : Char) : List Char → Option (List Char × List Char)
  | [] => none
  | x :: xs =>
    if x = c then some ([], xs)
    else (splitOnceC c xs).map (fun p => (x :: p.1, p.2))

/-- Helper for `splitWsC`, carrying the current token in reverse. -/
def splitWsAux : List Char → List Char → List (List Char)
  | [], tok => if tok.isEmpty then [] else [tok.reverse]
  | c :: cs, tok =>
    if c.isWhitespace then
      if tok.isEmpty then splitWsAux cs [] else tok.reverse :: splitWsAux cs []
    else splitWsAux cs (c :: tok)

/-- Rust `str::split_whitespace()`: whitespace-separated tokens, no empties. -/
def splitWsC (s : List Char) : List (List Char) := splitWsAux s []

/-- Rust `str::find(pat)` followed by slicing off everything through the end of
the first occurrence of `pat`: returns the remainder after that occurrence. -/
def findSubC (pat : List Char) : List Char → Option (List Char)
  | [] => stripPre pat []
  | c :: cs =>
    match stripPre pat (c :: cs) with
    | some rest => some rest
    | none => findSubC pat cs

/-- Digit-string accumulation used by `parseUIntC`. -/
def digitsValAux : List Char → Nat → Option Nat
  | [], acc => some acc
  | c :: cs, acc =>
    if c.isDigit then digitsValAux cs (acc * 10 + (c.toNat - 48)) else none

/-- Rust `str::parse::<uN>()` for an unsigned `w`-bit integer: optional leading
`+`, then one or more decimal digits, rejecting empty input, non-digits and
values that do not fit in `w` bits. -/
def parseUIntC (w : Nat) (s : List Char) : Option Nat :=
  let s' := match s with
    | '+' :: rest => rest
    | _ => s
  match s' with
  | [] => none
  | _ =>
    match digitsValAux s' 0 with
    | none => none
    | some v => if v < 2 ^ w then some v else none

/-- Rust `str::parse::<u64>()`. -/
def parse_u64 (s : List Char) : Option Nat := parseUIntC 64 s

/-- Rust `str::parse::<u32>()`. -/
def parse_u32 (s : List Char) : Option Nat := parseUIntC 32 s

deriving instance DecidableEq for Except

/-- Whether an `Except` value is an error. -/
def isErr {ε α : Type} : Except ε α → Bool
  | .error _ => true
  | .ok _ => false

/-- The shared shape of the per-line loops of `ProcDiskStats::parse`,
`NetDevStats::parse` and `MemoryStats::parse`: every line is handed to the
fallible `step`; a line whose parse fails is skipped, leaving the state
exactly as it was, and processing continues with the following lines. -/
def parseLoop {σ ε : Type} (step : σ → List Char → Except ε σ) :
    σ → List (List Char) → σ
  | st, [] => st
  | st, l :: ls =>
    match step st l with
    | .ok st' => parseLoop step st' ls
    | .error _ => parseLoop step st ls

/-- Association-list insert with overwrite, modelling `HashMap::insert`. -/
def assocInsert {V : Type} (m : List (String × V)) (k : String) (v : V) :
    List (String × V) :=
  (k, v) :: m.filter (fun p => p.1 ≠ k)

/-- Association-list lookup, modelling `HashMap::get`. -/
def assocGet {V : Type} (m : List (String × V)) (k : String) : Option V :=
  (m.find? (fun p => p.1 == k)).map (fun p => p.2)

/-! ### read.rs -/

/-- Error cases of `read_to_string_with_limit` (src/waymon/src/read.rs): the
I/O error from `File::open`, and the distinct `ErrorKind::InvalidData`
"file is too large" condition raised by the reader itself. -/
inductive IoErrorKind where
  | osOpenError
  | invalidDataTooLarge
  deriving DecidableEq, Repr

/-- Shallow embedding of `read_to_string_with_limit` (read.rs lines 6-24).
The file system is modelled by `file`: `none` when `File::open` fails, `some
contents` for the byte/char stream the successive reads would deliver.  The
reader takes at most `max_size + 1` chars and fails with the distinct
too-large error when more than `max_size` chars were obtained. -/
def read_to_string_with_limit (file : Option (List Char)) (max_size : Nat) :
    Except IoErrorKind (List Char) :=
  match file with
  | none => .error .osOpenError
  | some contents =>
    let buffer := contents.take (max_size + 1)
    if buffer.length > max_size then .error .invalidDataTooLarge
    else .ok buffer

/-! ### stats.rs: error type and the double-buffered delta store -/

namespace stats

/-- `StatsError` (stats.rs lines 11-17).  The source formats the offending
data into the `ParseError` message; the embedding keeps the fixed text. -/
inductive StatsError where
  | IoError (kind : IoErrorKind)
  | ParseError (msg : String)
  deriving DecidableEq, Repr

/-- `StatsDelta<T>` (stats.rs lines 25-31): two snapshot generations `a` and
`b`, the flag telling which is newer, and the timing metadata. -/
structure StatsDelta (T : Type) where
  a : T
  b : T
  a_newer : Bool
  timestamp : Nat
  duration : Nat
  deriving DecidableEq, Repr

/-- `StatsDelta::time_delta`. -/
def StatsDelta.time_delta {T : Type} (s : StatsDelta T) : Nat := s.duration

/-- `StatsDelta::get_new_and_old` (stats.rs lines 38-44). -/
def StatsDelta.get_new_and_old {T : Type} (s : StatsDelta T) : T × T :=
  if s.a_newer then (s.a, s.b) else (s.b, s.a)

/-- `StatsDelta::get_new` (stats.rs lines 46-52). -/
def StatsDelta.get_new {T : Type} (s : StatsDelta T) : T :=
  if s.a_newer then s.a else s.b

/-- The two generation labels of the double buffer. -/
inductive Gen where
  | A
  | B
  deriving DecidableEq, Repr

/-- The generation a given label denotes inside a store. -/
def StatsDelta.genValue {T : Type} (s : StatsDelta T) : Gen → T
  | .A => s.a
  | .B => s.b

/-- Label of the generation currently marked newer. -/
def StatsDelta.newGen {T : Type} (s : StatsDelta T) : Gen :=
  if s.a_newer then .A else .B

/-- Label of the generation currently marked older. -/
def StatsDelta.oldGen {T : Type} (s : StatsDelta T) : Gen :=
  if s.a_newer then .B else .A

/-- `<StatsDelta<T> as StatsDeltaIntf>::update` (stats.rs lines 88-98).  Every
`StatType::update` implementation in this repository is `*self = Self::read()?`,
so the freshly read snapshot is independent of the old one and a failed read
leaves the written generation untouched; the read's outcome enters the model
as the `readResult` argument.  Returns the updated store and the propagated
result of the `?` operator. -/
def StatsDelta.update {T E : Type} (s : StatsDelta T) (readResult : Except E T)
    (now : Nat) : StatsDelta T × Except E Unit :=
  match readResult with
  | .error e => (s, .error e)
  | .ok fresh =>
    let s1 := if s.a_newer then { s with b := fresh } else { s with a := fresh }
    let s2 := { s1 with a_newer := !s1.a_newer }
    let s3 := { s2 with duration := now - s2.timestamp }
    ({ s3 with timestamp := now }, .ok ())

/-- A sequence of `update` calls, each with its own read outcome and clock
value; failures are ignored by the caller (as `AllStats::update` does). -/
def StatsDelta.runUpdates {T E : Type} (s : StatsDelta T)
    (evs : List (Except E T × Nat)) : StatsDelta T :=
  evs.foldl (fun st ev => (st.update ev.1 ev.2).1) s

end stats

/-! ### collectors/procstat.rs -/

namespace procstat

/-- `collectors::procstat::ParseError` (procstat.rs lines 8-18). -/
inductive ParseError where
  | ParseIntError
  | NoCpuId
  | MaxCpuCountExceeded
  | MissingCpuField
  deriving DecidableEq, Repr

/-- `MAX_NUM_CPUS` (procstat.rs line 6). -/
def MAX_NUM_CPUS : Nat := 1024 * 1024

/-- `CpuStats` (procstat.rs lines 53-65); `Ticks` is a `u64` newtype, modelled
as the bounded `Nat` the parser produces. -/
structure CpuStats where
  user : Nat
  nice : Nat
  system : Nat
  idle : Nat
  iowait : Nat
  irq : Nat
  softirq : Nat
  steal : Nat
  guest : Nat
  guest_nice : Nat
  deriving DecidableEq, Repr

/-- `CpuStats::zero` (procstat.rs lines 68-81). -/
def CpuStats.zero : CpuStats :=
  { user := 0, nice := 0, system := 0, idle := 0, iowait := 0, irq := 0
    softirq := 0, steal := 0, guest := 0, guest_nice := 0 }

/-- One mandatory tick field:
`iter.next().ok_or(ParseError::MissingCpuField)?.parse::<u64>()?`. -/
def readMand (toks : List (List Char)) :
    Except ParseError (Nat × List (List Char)) :=
  match toks with
  | [] => .error .MissingCpuField
  | t :: ts =>
    match parse_u64 t with
    | none => .error .ParseIntError
    | some v => .ok (v, ts)

/-- One optional tick field: `iter.next().map_or(Ok(0), |x| x.parse::<u64>())?`
(absent means 0, present but malformed is an error). -/
def readOpt (toks : List (List Char)) :
    Except ParseError (Nat × List (List Char)) :=
  match toks with
  | [] => .ok (0, [])
  | t :: ts =>
    match parse_u64 t with
    | none => .error .ParseIntError
    | some v => .ok (v, ts)

/-- Fields 5-10 of a CPU line (procstat.rs lines 110-115), assigned in source
order; on error the fields already assigned keep their new values. -/
def parseOptFields (s : CpuStats) (toks : List (List Char)) :
    CpuStats × Option ParseError :=
  match readOpt toks with
  | .error e => (s, some e)
  | .ok (v, toks) =>
  let s := { s with iowait := v }
  match readOpt toks with
  | .error e => (s, some e)
  | .ok (v, toks) =>
  let s := { s with irq := v }
  match readOpt toks with
  | .error e => (s, some e)
  | .ok (v, toks) =>
  let s := { s with softirq := v }
  match readOpt toks with
  | .error e => (s, some e)
  | .ok (v, toks) =>
  let s := { s with steal := v }
  match readOpt toks with
  | .error e => (s, some e)
  | .ok (v, toks) =>
  let s := { s with guest := v }
  match readOpt toks with
  | .error e => (s, some e)
  | .ok (v, _) =>
  ({ s with guest_nice := v }, none)

/-- The field chain of `CpuStats::parse` over the token iterator: the first
four fields are mandatory, fields 5-10 default to zero when the iterator is
exhausted.  Mirrors the in-place field assignments: a field is assigned
before the next one is read, so a failing line leaves the leading fields
updated. -/
def CpuStats.parseToks (s : CpuStats) (toks : List (List Char)) :
    CpuStats × Option ParseError :=
  match readMand toks with
  | .error e => (s, some e)
  | .ok (v, toks) =>
  let s := { s with user := v }
  match readMand toks with
  | .error e => (s, some e)
  | .ok (v, toks) =>
  let s := { s with nice := v }
  match readMand toks with
  | .error e => (s, some e)
  | .ok (v, toks) =>
  let s := { s with system := v }
  match readMand toks with
  | .error e => (s, some e)
  | .ok (v, toks) =>
  let s := { s with idle := v }
  parseOptFields s toks

/-- `CpuStats::parse` (procstat.rs lines 83-118): splits the line at single
spaces and runs the field chain. -/
def CpuStats.parse (s : CpuStats) (line : List Char) :
    CpuStats × Option ParseError :=
  CpuStats.parseToks s (splitChar ' ' line)

/-- `ProcStat` (procstat.rs lines 121-130). -/
structure ProcStat where
  cpu : CpuStats
  cpus : List CpuStats
  num_forks : Nat
  num_context_switches : Nat
  procs_running : Nat
  procs_blocked : Nat
  boot_time : Nat
  deriving DecidableEq, Repr

/-- `<ProcStat as StatType>::new_zero` (procstat.rs lines 137-147). -/
def ProcStat.new_zero : ProcStat :=
  { cpu := CpuStats.zero, cpus := [], num_forks := 0
    num_context_switches := 0, procs_running := 0, procs_blocked := 0
    boot_time := 0 }

/-- `ProcStat::parse_cpu_line` (procstat.rs lines 209-225): the aggregate line
starts with two further spaces; otherwise the leading token is the CPU id,
bounds-checked against `MAX_NUM_CPUS`, and the per-CPU vector is grown with
zero records (`resize_with`) before the indexed record is parsed in place. -/
def ProcStat.parse_cpu_line (ps : ProcStat) (line : List Char) :
    ProcStat × Option ParseError :=
  match stripPre "  ".data line with
  | some data =>
    let r := CpuStats.parse ps.cpu data
    ({ ps with cpu := r.1 }, r.2)
  | none =>
    match splitOnceC ' ' line with
    | none => (ps, some .NoCpuId)
    | some (cpu_id_str, data) =>
      match parse_u64 cpu_id_str with
      | none => (ps, some .ParseIntError)
      | some cpu_id =>
        if cpu_id > MAX_NUM_CPUS then (ps, some .MaxCpuCountExceeded)
        else
          let cpus :=
            if ps.cpus.length ≤ cpu_id then
              ps.cpus ++ List.replicate (cpu_id + 1 - ps.cpus.length) CpuStats.zero
            else ps.cpus
          let r := CpuStats.parse (cpus.getD cpu_id CpuStats.zero) data
          ({ ps with cpus := cpus.set cpu_id r.1 }, r.2)

/-- `ProcStat::parse_line` (procstat.rs lines 184-207): literal prefix
dispatch; an unrecognized line is accepted and ignored. -/
def ProcStat.parse_line (ps : ProcStat) (line : List Char) :
    ProcStat × Option ParseError :=
  match stripPre "cpu".data line with
  | some data => ProcStat.parse_cpu_line ps data
  | none =>
  match stripPre "btime ".data line with
  | some data =>
    match parse_u64 data with
    | none => (ps, some .ParseIntError)
    | some v => ({ ps with boot_time := v }, none)
  | none =>
  match stripPre "ctxt ".data line with
  | some data =>
    match parse_u64 data with
    | none => (ps, some .ParseIntError)
    | some v => ({ ps with num_context_switches := v }, none)
  | none =>
  match stripPre "processes ".data line with
  | some data =>
    match parse_u64 data with
    | none => (ps, some .ParseIntError)
    | some v => ({ ps with num_forks := v }, none)
  | none =>
  match stripPre "procs_running ".data line with
  | some data =>
    match parse_u64 data with
    | none => (ps, some .ParseIntError)
    | some v => ({ ps with procs_running := v }, none)
  | none =>
  match stripPre "procs_blocked ".data line with
  | some data =>
    match parse_u64 data with
    | none => (ps, some .ParseIntError)
    | some v => ({ ps with procs_blocked := v }, none)
  | none => (ps, none)

/-- The per-line loop of `ProcStat::parse` (procstat.rs lines 172-179): each
line is parsed in turn and per-line errors are ignored — processing always
continues with the state the failed line left behind. -/
def ProcStat.parseLines (ps : ProcStat) : List (List Char) → ProcStat
  | [] => ps
  | l :: ls => ProcStat.parseLines (ProcStat.parse_line ps l).1 ls

/-- `ProcStat::parse` (procstat.rs lines 161-182). -/
def ProcStat.parse (data : String) : ProcStat :=
  ProcStat.parseLines ProcStat.new_zero (splitChar '\n' data.data)

end procstat

/-! ### collectors/diskstats.rs -/

namespace diskstats

/-- `collectors::diskstats::ParseError` (diskstats.rs lines 13-19). -/
inductive ParseError where
  | ParseIntError
  | MissingField
  deriving DecidableEq, Repr

/-- `DiskStats` (diskstats.rs lines 21-49); the `u32` fields are bounded by
`parse_u32` where they are parsed. -/
structure DiskStats where
  num_reads : Nat
  num_reads_merged : Nat
  num_sectors_read : Nat
  num_writes : Nat
  num_writes_merged : Nat
  num_sectors_written : Nat
  num_discards : Nat
  num_discards_merged : Nat
  num_sectors_discarded : Nat
  num_flushes : Nat
  ms_reading : Nat
  ms_writing : Nat
  iops_in_progress : Nat
  ms_doing_io : Nat
  weighted_ms_doing_io : Nat
  ms_discarding : Nat
  ms_flushing : Nat
  deriving DecidableEq, Repr

/-- `DiskStats::zero` (diskstats.rs lines 52-72). -/
def DiskStats.zero : DiskStats :=
  { num_reads := 0, num_reads_merged := 0, num_sectors_read := 0
    num_writes := 0, num_writes_merged := 0, num_sectors_written := 0
    num_discards := 0, num_discards_merged := 0, num_sectors_discarded := 0
    num_flushes := 0, ms_reading := 0, ms_writing := 0, iops_in_progress := 0
    ms_doing_io := 0, weighted_ms_doing_io := 0, ms_discarding := 0
    ms_flushing := 0 }

/-- Mandatory field: `iter.next().ok_or(ParseError::MissingField)?.parse::<u64>()?`. -/
def mandU64 (toks : List (List Char)) :
    Except ParseError (Nat × List (List Char)) :=
  match toks with
  | [] => .error .MissingField
  | t :: ts =>
    match parse_u64 t with
    | none => .error .ParseIntError
    | some v => .ok (v, ts)

/-- Mandatory field parsed as `u32`. -/
def mandU32 (toks : List (List Char)) :
    Except ParseError (Nat × List (List Char)) :=
  match toks with
  | [] => .error .MissingField
  | t :: ts =>
    match parse_u32 t with
    | none => .error .ParseIntError
    | some v => .ok (v, ts)

/-- Optional field: `iter.next().map_or(Ok(0), |x| x.parse::<u64>())?`. -/
def optU64 (toks : List (List Char)) :
    Except ParseError (Nat × List (List Char)) :=
  match toks with
  | [] => .ok (0, [])
  | t :: ts =>
    match parse_u64 t with
    | none => .error .ParseIntError
    | some v => .ok (v, ts)

/-- `DiskStats::parse` (diskstats.rs lines 74-144): splits the remainder of a
device line at single spaces and reads the fields in source order — eleven
mandatory fields, then `num_discards`/`num_discards_merged`/
`num_sectors_discarded` defaulting to 0, then the mandatory `ms_discarding`,
then `num_flushes` defaulting to 0, then the mandatory `ms_flushing`. -/
def DiskStats.parse (line : List Char) : Except ParseError DiskStats := do
  let toks := splitChar ' ' line
  let (num_reads, toks) ← mandU64 toks
  let (num_reads_merged, toks) ← mandU64 toks
  let (num_sectors_read, toks) ← mandU64 toks
  let (ms_reading, toks) ← mandU32 toks
  let (num_writes, toks) ← mandU64 toks
  let (num_writes_merged, toks) ← mandU64 toks
  let (num_sectors_written, toks) ← mandU64 toks
  let (ms_writing, toks) ← mandU32 toks
  let (iops_in_progress, toks) ← mandU32 toks
  let (ms_doing_io, toks) ← mandU32 toks
  let (weighted_ms_doing_io, toks) ← mandU32 toks
  let (num_discards, toks) ← optU64 toks
  let (num_discards_merged, toks) ← optU64 toks
  let (num_sectors_discarded, toks) ← optU64 toks
  let (ms_discarding, toks) ← mandU32 toks
  let (num_flushes, toks) ← optU64 toks
  let (ms_flushing, _) ← mandU32 toks
  pure { num_reads, num_reads_merged, num_sectors_read, num_writes
         num_writes_merged, num_sectors_written, num_discards
         num_discards_merged, num_sectors_discarded, num_flushes, ms_reading
         ms_writing, iops_in_progress, ms_doing_io, weighted_ms_doing_io
         ms_discarding, ms_flushing }

/-- `ProcDiskStats` (diskstats.rs lines 147-150): the per-device-name map. -/
structure ProcDiskStats where
  disks : List (String × DiskStats)
  deriving DecidableEq, Repr

/-- `ProcDiskStats::parse_line` (diskstats.rs lines 175-190): empty lines are
accepted; otherwise major, minor and device name are split off (each after
`trim_start`) and the map entry is inserted only when the whole record
parses. -/
def ProcDiskStats.parse_line (d : ProcDiskStats) (line : List Char) :
    Except ParseError ProcDiskStats :=
  if line.isEmpty then .ok d
  else
    match splitOnceC ' ' (trimStartC line) with
    | none => .error .MissingField
    | some (_dev_major_str, line) =>
    match splitOnceC ' ' (trimStartC line) with
    | none => .error .MissingField
    | some (_dev_minor_str, line) =>
    match splitOnceC ' ' (trimStartC line) with
    | none => .error .MissingField
    | some (name, line) =>
    match DiskStats.parse line with
    | .error e => .error e
    | .ok ds => .ok { disks := assocInsert d.disks ⟨name⟩ ds }

/-- `ProcDiskStats::parse` (diskstats.rs lines 158-173): the per-line loop
ignores errors from individual lines. -/
def ProcDiskStats.parse (data : String) : ProcDiskStats :=
  parseLoop ProcDiskStats.parse_line { disks := [] } (splitChar '\n' data.data)

end diskstats

/-! ### collectors/net.rs -/

namespace net

/-- `collectors::net::ParseError` (net.rs lines 8-14). -/
inductive ParseError where
  | ParseIntError
  | MissingField
  deriving DecidableEq, Repr

/-- `InterfaceStats` (net.rs lines 16-35). -/
structure InterfaceStats where
  rx_bytes : Nat
  rx_packets : Nat
  rx_errs : Nat
  rx_drop : Nat
  rx_fifo : Nat
  rx_frame : Nat
  rx_compressed : Nat
  rx_multicast : Nat
  tx_bytes : Nat
  tx_packets : Nat
  tx_errs : Nat
  tx_drop : Nat
  tx_fifo : Nat
  tx_colls : Nat
  tx_carrier : Nat
  tx_compressed : Nat
  deriving DecidableEq, Repr

/-- `InterfaceStats::zero` (net.rs lines 38-40). -/
def InterfaceStats.zero : InterfaceStats :=
  { rx_bytes := 0, rx_packets := 0, rx_errs := 0, rx_drop := 0, rx_fifo := 0
    rx_frame := 0, rx_compressed := 0, rx_multicast := 0, tx_bytes := 0
    tx_packets := 0, tx_errs := 0, tx_drop := 0, tx_fifo := 0, tx_colls := 0
    tx_carrier := 0, tx_compressed := 0 }

/-- The fixed receive/transmit field order of the `fields` array
(net.rs lines 44-61). -/
def netSetters : List (InterfaceStats → Nat → InterfaceStats) :=
  [ fun s v => { s with rx_bytes := v }
  , fun s v => { s with rx_packets := v }
  , fun s v => { s with rx_errs := v }
  , fun s v => { s with rx_drop := v }
  , fun s v => { s with rx_fifo := v }
  , fun s v => { s with rx_frame := v }
  , fun s v => { s with rx_compressed := v }
  , fun s v => { s with rx_multicast := v }
  , fun s v => { s with tx_bytes := v }
  , fun s v => { s with tx_packets := v }
  , fun s v => { s with tx_errs := v }
  , fun s v => { s with tx_drop := v }
  , fun s v => { s with tx_fifo := v }
  , fun s v => { s with tx_colls := v }
  , fun s v => { s with tx_carrier := v }
  , fun s v => { s with tx_compressed := v } ]

/-- The `zip` loop of `InterfaceStats::parse` (net.rs lines 63-65): pairs
whitespace tokens with the remaining field slots, stopping when either runs
out; a malformed token aborts the record with an error. -/
def parseFields (s : InterfaceStats) :
    List (List Char) → List (InterfaceStats → Nat → InterfaceStats) →
    Except ParseError InterfaceStats
  | [], _ => .ok s
  | _, [] => .ok s
  | t :: ts, f :: fs =>
    match parse_u64 t with
    | none => .error .ParseIntError
    | some v => parseFields (f s v) ts fs

/-- `InterfaceStats::parse` (net.rs lines 42-67). -/
def InterfaceStats.parse (line : List Char) : Except ParseError InterfaceStats :=
  parseFields InterfaceStats.zero (splitWsC line) netSetters

/-- `NetDevStats` (net.rs lines 70-73). -/
structure NetDevStats where
  interfaces : List (String × InterfaceStats)
  deriving DecidableEq, Repr

/-- `NetDevStats::parse_line` (net.rs lines 102-113). -/
def NetDevStats.parse_line (s : NetDevStats) (line : List Char) :
    Except ParseError NetDevStats :=
  if line.isEmpty then .ok s
  else
    match splitOnceC ':' (trimStartC line) with
    | none => .error .MissingField
    | some (if_name, line) =>
      match InterfaceStats.parse line with
      | .error e => .error e
      | .ok st => .ok { interfaces := assocInsert s.interfaces ⟨if_name⟩ st }

/-- `NetDevStats::parse` (net.rs lines 81-100): the first two header lines are
skipped, then the per-line loop ignores errors from individual lines. -/
def NetDevStats.parse (data : String) : NetDevStats :=
  parseLoop NetDevStats.parse_line { interfaces := [] }
    ((splitChar '\n' data.data).drop 2)

end net

/-! ### collectors/meminfo.rs -/

namespace meminfo

/-- `collectors::meminfo::ParseError` (meminfo.rs lines 8-14). -/
inductive ParseError where
  | ParseIntError
  | UnexpectedData
  deriving DecidableEq, Repr

/-- `MemoryStats` (meminfo.rs lines 19-53); all values in kilobytes. -/
structure MemoryStats where
  mem_total : Nat
  mem_free : Nat
  mem_available : Nat
  buffers : Nat
  cached : Nat
  swap_cached : Nat
  active : Nat
  inactive : Nat
  unevictable : Nat
  mlocked : Nat
  high_total : Nat
  high_free : Nat
  low_total : Nat
  low_free : Nat
  swap_total : Nat
  swap_free : Nat
  dirty : Nat
  writeback : Nat
  anon_pages : Nat
  mapped : Nat
  shmem : Nat
  kreclaimable : Nat
  slab : Nat
  sreclaimable : Nat
  sunreclaimable : Nat
  kernel_stack : Nat
  page_tables : Nat
  commit_limit : Nat
  committed_as : Nat
  vmalloc_total : Nat
  vmalloc_used : Nat
  deriving DecidableEq, Repr

/-- The all-zero `MemoryStats` (its `Default` derive). -/
def MemoryStats.zero : MemoryStats :=
  { mem_total := 0, mem_free := 0, mem_available := 0, buffers := 0
    cached := 0, swap_cached := 0, active := 0, inactive := 0
    unevictable := 0, mlocked := 0, high_total := 0, high_free := 0
    low_total := 0, low_free := 0, swap_total := 0, swap_free := 0
    dirty := 0, writeback := 0, anon_pages := 0, mapped := 0, shmem := 0
    kreclaimable := 0, slab := 0, sreclaimable := 0, sunreclaimable := 0
    kernel_stack := 0, page_tables := 0, commit_limit := 0, committed_as := 0
    vmalloc_total := 0, vmalloc_used := 0 }

/-- `MemoryStats::try_parse_kb` (meminfo.rs lines 109-121), returning the
parsed value instead of assigning through a `&mut` reference: `none` when the
line does not carry the prefix, the value when it does and the rest is a
`" kB"`-suffixed integer, and an error otherwise. -/
def try_parse_kb (line pre : List Char) : Except ParseError (Option Nat) :=
  match stripPre pre line with
  | none => .ok none
  | some data =>
    match stripSuf " kB".data (trimStartC data) with
    | none => .error .UnexpectedData
    | some num =>
      match parse_u64 num with
      | none => .error .ParseIntError
      | some v => .ok (some v)

/-- The prefix/field pairs of the `||`-chain in `MemoryStats::parse_line`
(meminfo.rs lines 74-107), in source order. -/
def memFields : List (String × (MemoryStats → Nat → MemoryStats)) :=
  [ ("MemTotal:", fun m v => { m with mem_total := v })
  , ("MemFree:", fun m v => { m with mem_free := v })
  , ("MemAvailable:", fun m v => { m with mem_available := v })
  , ("Buffers:", fun m v => { m with buffers := v })
  , ("Cached:", fun m v => { m with cached := v })
  , ("SwapCached:", fun m v => { m with swap_cached := v })
  , ("Active:", fun m v => { m with active := v })
  , ("Inactive:", fun m v => { m with inactive := v })
  , ("Unevictable:", fun m v => { m with unevictable := v })
  , ("Mlocked:", fun m v => { m with mlocked := v })
  , ("HighTotal:", fun m v => { m with high_total := v })
  , ("HighFree:", fun m v => { m with high_free := v })
  , ("LowTotal:", fun m v => { m with low_total := v })
  , ("LowFree:", fun m v => { m with low_free := v })
  , ("SwapTotal:", fun m v => { m with swap_total := v })
  , ("SwapFree:", fun m v => { m with swap_free := v })
  , ("Dirty:", fun m v => { m with dirty := v })
  , ("Writeback:", fun m v => { m with writeback := v })
  , ("AnonPages:", fun m v => { m with anon_pages := v })
  , ("Mapped:", fun m v => { m with mapped := v })
  , ("Shmem:", fun m v => { m with shmem := v })
  , ("KReclaimable:", fun m v => { m with kreclaimable := v })
  , ("Slab:", fun m v => { m with slab := v })
  , ("SReclaimable:", fun m v => { m with sreclaimable := v })
  , ("SUnreclaim:", fun m v => { m with sunreclaimable := v })
  , ("KernelStack:", fun m v => { m with kernel_stack := v })
  , ("PageTables:", fun m v => { m with page_tables := v })
  , ("CommitLimit:", fun m v => { m with commit_limit := v })
  , ("Committed_AS:", fun m v => { m with committed_as := v })
  , ("VmallocTotal:", fun m v => { m with vmalloc_total := v })
  , ("VmallocUsed:", fun m v => { m with vmalloc_used := v }) ]

/-- The short-circuiting `||`-chain over `memFields`: the first matching
prefix decides the line's fate, later prefixes are not tried. -/
def parseLineFields (m : MemoryStats) (line : List Char) :
    List (String × (MemoryStats → Nat → MemoryStats)) →
    Except ParseError MemoryStats
  | [] => .ok m
  | (pre, upd) :: rest =>
    match try_parse_kb line pre.data with
    | .error e => .error e
    | .ok (some v) => .ok (upd m v)
    | .ok none => parseLineFields m line rest

/-- `MemoryStats::parse_line` (meminfo.rs lines 74-107). -/
def MemoryStats.parse_line (m : MemoryStats) (line : List Char) :
    Except ParseError MemoryStats :=
  parseLineFields m line memFields

/-- `MemoryStats::parse` (meminfo.rs lines 61-72): the per-line loop logs
per-line errors (once per process) and otherwise ignores them. -/
def MemoryStats.parse (data : String) : MemoryStats :=
  parseLoop MemoryStats.parse_line MemoryStats.zero (splitChar '\n' data.data)

end meminfo

/-! ### collectors/pressure.rs -/

namespace pressure

/-- `parse_pressure_line` (pressure.rs lines 123-135): an embedded `total=`
token anywhere in the line supplies the value (everything after the first
occurrence is parsed as `u64`); a line without the token is a hard error.
The source formats the offending line into the error message. -/
def parse_pressure_line (data : List Char) : Except stats.StatsError Nat :=
  match findSubC "total=".data data with
  | some rest =>
    match parse_u64 rest with
    | some v => .ok v
    | none => .error (.ParseError "invalid integer in Linux PSI file")
  | none => .error (.ParseError "unparseable Linux PSI line")

/-- The line loop of `parse_pressure_data` (pressure.rs lines 112-118),
carrying the `some`/`full` accumulators; a failing significant line aborts
the whole parse through the `?` operator. -/
def parsePressureLines : List (List Char) → Nat → Nat →
    Except stats.StatsError (Nat × Nat)
  | [], s, f => .ok (s, f)
  | l :: ls, s, f =>
    match stripPre "some ".data l with
    | some data =>
      match parse_pressure_line data with
      | .ok v => parsePressureLines ls v f
      | .error e => .error e
    | none =>
      match stripPre "full ".data l with
      | some data =>
        match parse_pressure_line data with
        | .ok v => parsePressureLines ls s v
        | .error e => .error e
      | none => parsePressureLines ls s f

/-- `parse_pressure_data` (pressure.rs lines 109-121). -/
def parse_pressure_data (data : String) : Except stats.StatsError (Nat × Nat) :=
  parsePressureLines (splitChar '\n' data.data) 0 0

/-- A significant pressure line — one prefixed `some ` or `full ` — whose
remainder carries no `total=` token. -/
def badSigLine (l : List Char) : Bool :=
  match stripPre "some ".data l with
  | some data => (findSubC "total=".data data).isNone
  | none =>
    match stripPre "full ".data l with
    | some data => (findSubC "total=".data data).isNone
    | none => false

/-- `CpuPressure` (pressure.rs lines 9-13): the two cumulative stall
counters. -/
structure CpuPressure where
  some : Nat
  full : Nat
  deriving DecidableEq, Repr

/-- `CpuPressure::parse` (pressure.rs lines 20-23). -/
def CpuPressure.parse (data : String) : Except stats.StatsError CpuPressure :=
  match parse_pressure_data data with
  | .ok (s, f) => .ok { some := s, full := f }
  | .error e => .error e

/-- `IoPressure` (pressure.rs lines 41-45). -/
structure IoPressure where
  some : Nat
  full : Nat
  deriving DecidableEq, Repr

/-- `IoPressure::parse` (pressure.rs lines 52-55). -/
def IoPressure.parse (data : String) : Except stats.StatsError IoPressure :=
  match parse_pressure_data data with
  | .ok (s, f) => .ok { some := s, full := f }
  | .error e => .error e

/-- `MemoryPressure` (pressure.rs lines 73-77). -/
structure MemoryPressure where
  some : Nat
  full : Nat
  deriving DecidableEq, Repr

/-- `MemoryPressure::parse` (pressure.rs lines 84-87). -/
def MemoryPressure.parse (data : String) :
    Except stats.StatsError MemoryPressure :=
  match parse_pressure_data data with
  | .ok (s, f) => .ok { some := s, full := f }
  | .error e => .error e

end pressure

/-! ### stats.rs: the AllStats registry -/

namespace stats

/-- `AllStats` (stats.rs lines 101-110): one lazily created store per
counter-source type. -/
structure AllStats where
  proc_stats : Option (StatsDelta procstat.ProcStat)
  disk_stats : Option (StatsDelta diskstats.ProcDiskStats)
  net_stats : Option (StatsDelta net.NetDevStats)
  mem_stats : Option (StatsDelta meminfo.MemoryStats)
  cpu_pressure : Option (StatsDelta pressure.CpuPressure)
  io_pressure : Option (StatsDelta pressure.IoPressure)
  mem_pressure : Option (StatsDelta pressure.MemoryPressure)
  deriving DecidableEq, Repr

/-- The outcome of each snapshot type's `read()` during one tick, supplied to
the model of `AllStats::update` as its environment.  Read results are listed
for all seven created store kinds — including the three pressure kinds, whose
fresh data would be available had `update` asked for it. -/
structure ReadEnv where
  proc : Except StatsError procstat.ProcStat
  disk : Except StatsError diskstats.ProcDiskStats
  net : Except StatsError net.NetDevStats
  mem : Except StatsError meminfo.MemoryStats
  cpu_p : Except StatsError pressure.CpuPressure
  io_p : Except StatsError pressure.IoPressure
  mem_p : Except StatsError pressure.MemoryPressure

/-- `AllStats::update_stat` (stats.rs lines 159-173): a missing store is
skipped; a present store is refreshed and a failure is logged, not
propagated (the single-threaded model has no concurrent borrow, so the
`try_borrow_mut` failure branch cannot arise). -/
def AllStats.update_stat {T : Type} (stat : Option (StatsDelta T))
    (readResult : Except StatsError T) (now : Nat) :
    Option (StatsDelta T) :=
  match stat with
  | none => none
  | some s => some (s.update readResult now).1

/-- `AllStats::update` (stats.rs lines 145-150): refreshes the proc, disk,
net and mem stores, in that order, and nothing else — in particular the
three pressure stores are left exactly as they are. -/
def AllStats.update (a : AllStats) (env : ReadEnv) (now : Nat) : AllStats :=
  { a with
    proc_stats := AllStats.update_stat a.proc_stats env.proc now
    disk_stats := AllStats.update_stat a.disk_stats env.disk now
    net_stats := AllStats.update_stat a.net_stats env.net now
    mem_stats := AllStats.update_stat a.mem_stats env.mem now }

end stats

/-! ### Rate derivation: the counter subtractions of the consumers

`Ticks::sub` (procstat.rs lines 37-43), `NetWidget::update`
(widgets/net.rs lines 86-87) and `DiskIoWidget::update`
(widgets/disk_io.rs lines 99-110) subtract cumulative counters with Rust's
built-in `-` on `u64` (resp. `u32`).  Per the Rust language, unsigned
subtraction is exact when no underflow occurs; on underflow it is an
"arithmetic overflow" program error that is never undefined behavior, and
whose defined outcome depends on the `overflow-checks` build setting (this
crate sets none): enabled — the default for dev and test profiles — it
panics, disabled — the default for release — it wraps modulo the integer
width.  A panic is modelled as `none`. -/

/-- Wraparound subtraction modulo `2^w`. -/
def wrapSub (w a b : Nat) : Nat := (a + 2 ^ w - b) % 2 ^ w

/-- Rust's `-` on an unsigned `w`-bit integer type, under the
`overflow-checks` setting `checks`. -/
def rustSubU (checks : Bool) (w a b : Nat) : Option Nat :=
  if b ≤ a then some (a - b)
  else if checks then none
  else some (wrapSub w a b)

/-- `impl Sub for Ticks` (procstat.rs lines 37-43): `Ticks(self.0 - other.0)`
on the `u64` tick counters. -/
def Ticks.sub (checks : Bool) (x y : Nat) : Option Nat :=
  rustSubU checks 64 x y

/-- The `new.rx_bytes - old.rx_bytes` `u64` subtraction of
`NetWidget::update` (widgets/net.rs line 86). -/
def netRxBytesDelta (checks : Bool) (n o : net.InterfaceStats) : Option Nat :=
  rustSubU checks 64 n.rx_bytes o.rx_bytes

/-- The `new.ms_doing_io - old.ms_doing_io` `u32` subtraction of
`DiskIoWidget::update` (widgets/disk_io.rs line 99). -/
def msDoingIoDelta (checks : Bool) (n o : diskstats.DiskStats) : Option Nat :=
  rustSubU checks 32 n.ms_doing_io o.ms_doing_io

/-! ### Concrete fixtures used to evaluate the registry's update behavior -/

/-- A registry state in which every store — the three pressure stores
included — has been created (both generations zeroed, timestamp 0), as after
`get_cpu_pressure`/`get_io_pressure`/`get_mem_pressure` and the four other
accessors have each been called once. -/
def allCreatedStats : stats.AllStats :=
  { proc_stats := some ⟨procstat.ProcStat.new_zero, procstat.ProcStat.new_zero, true, 0, 0⟩
    disk_stats := some ⟨⟨[]⟩, ⟨[]⟩, true, 0, 0⟩
    net_stats := some ⟨⟨[]⟩, ⟨[]⟩, true, 0, 0⟩
    mem_stats := some ⟨meminfo.MemoryStats.zero, meminfo.MemoryStats.zero, true, 0, 0⟩
    cpu_pressure := some ⟨⟨0, 0⟩, ⟨0, 0⟩, true, 0, 0⟩
    io_pressure := some ⟨⟨0, 0⟩, ⟨0, 0⟩, true, 0, 0⟩
    mem_pressure := some ⟨⟨0, 0⟩, ⟨0, 0⟩, true, 0, 0⟩ }

/-- A tick's read outcomes: the proc read fails, every other source — the
pressure sources included — has fresh, nonzero data available. -/
def tickEnv : stats.ReadEnv :=
  { proc := .error (.ParseError "proc read failed")
    disk := .ok ⟨[("sda", { diskstats.DiskStats.zero with num_reads := 7 })]⟩
    net := .ok ⟨[("lo", { net.InterfaceStats.zero with rx_bytes := 9 })]⟩
    mem := .ok { meminfo.MemoryStats.zero with mem_total := 11 }
    cpu_p := .ok ⟨21, 13⟩
    io_p := .ok ⟨22, 14⟩
    mem_p := .ok ⟨23, 15⟩ }

/-! ### Helper lemmas -/

theorem parseLoop_skip {σ ε : Type} (step : σ → List Char → Except ε σ)
    (st : σ) (l : List Char) (ls : List (List Char)) (e : ε)
    (h : step st l = .error e) :
    parseLoop step st (l :: ls) = parseLoop step st ls := by
  simp only [parseLoop, h]

theorem parseLoop_append {σ ε : Type} (step : σ → List Char → Except ε σ)
    (xs : List (List Char)) :
    ∀ (st : σ) (ys : List (List Char)),
      parseLoop step st (xs ++ ys) = parseLoop step (parseLoop step st xs) ys := by
  induction xs with
  | nil => intro st ys; rfl
  | cons l ls ih =>
    intro st ys
    simp only [List.cons_append, parseLoop]
    cases h : step st l with
    | ok st' => exact ih st' ys
    | error e => exact ih st ys

theorem parse_pressure_line_no_total (data : List Char)
    (h : findSubC "total=".data data = none) :
    pressure.parse_pressure_line data =
      .error (.ParseError "unparseable Linux PSI line") := by
  simp only [pressure.parse_pressure_line, h]

theorem parsePressureLines_error_of_bad (ls : List (List Char)) :
    ∀ (s f : Nat) (l : List Char), l ∈ ls → pressure.badSigLine l = true →
      isErr (pressure.parsePressureLines ls s f) = true := by
  induction ls with
  | nil =>
    intro s f l hl _
    simp at hl
  | cons hd tl ih =>
    intro s f l hl hbad
    rcases List.mem_cons.mp hl with rfl | hmem
    · -- the bad line is the head: its parse fails and the `?` aborts the loop
      unfold pressure.badSigLine at hbad
      cases hsome : stripPre "some ".data l with
      | some data =>
        rw [hsome] at hbad
        simp only [Option.isNone_iff_eq_none] at hbad
        simp only [pressure.parsePressureLines, hsome,
          parse_pressure_line_no_total data hbad, isErr]
      | none =>
        rw [hsome] at hbad
        cases hfull : stripPre "full ".data l with
        | some data =>
          rw [hfull] at hbad
          simp only [Option.isNone_iff_eq_none] at hbad
          simp only [pressure.parsePressureLines, hsome, hfull,
            parse_pressure_line_no_total data hbad, isErr]
        | none =>
          rw [hfull] at hbad
          cases hbad
    · -- the bad line is in the tail: the head either aborts or the loop recurses
      cases hsome : stripPre "some ".data hd with
      | some data =>
        cases hpl : pressure.parse_pressure_line data with
        | ok v =>
          simp only [pressure.parsePressureLines, hsome, hpl]
          exact ih v f l hmem hbad
        | error e =>
          simp only [pressure.parsePressureLines, hsome, hpl, isErr]
      | none =>
        cases hfull : stripPre "full ".data hd with
        | some data =>
          cases hpl : pressure.parse_pressure_line data with
          | ok v =>
            simp only [pressure.parsePressureLines, hsome, hfull, hpl]
            exact ih s v l hmem hbad
          | error e =>
            simp only [pressure.parsePressureLines, hsome, hfull, hpl, isErr]
        | none =>
          simp only [pressure.parsePressureLines, hsome, hfull]
          exact ih s f l hmem hbad

theorem parsePressureLines_ok_of_insignificant (ls : List (List Char)) :
    ∀ (s f : Nat),
      (∀ l, l ∈ ls → stripPre "some ".data l = none ∧
        stripPre "full ".data l = none) →
      pressure.parsePressureLines ls s f = .ok (s, f) := by
  induction ls with
  | nil => intro s f _; rfl
  | cons hd tl ih =>
    intro s f h
    have hhd := h hd (List.mem_cons_self hd tl)
    simp only [pressure.parsePressureLines, hhd.1, hhd.2]
    exact ih s f (fun l hl => h l (List.mem_cons_of_mem hd hl))

theorem parseOptFields_suffix_zero (s : procstat.CpuStats)
    (toks : List (List Char)) (r : procstat.CpuStats)
    (h : procstat.parseOptFields s toks = (r, none)) :
    (toks.length ≤ 0 → r.iowait = 0) ∧ (toks.length ≤ 1 → r.irq = 0) ∧
    (toks.length ≤ 2 → r.softirq = 0) ∧ (toks.length ≤ 3 → r.steal = 0) ∧
    (toks.length ≤ 4 → r.guest = 0) ∧ (toks.length ≤ 5 → r.guest_nice = 0) := by
  rcases toks with _ | ⟨t1, _ | ⟨t2, _ | ⟨t3, _ | ⟨t4, _ | ⟨t5, _ | ⟨t6, rest⟩⟩⟩⟩⟩⟩
  · simp only [procstat.parseOptFields, procstat.readOpt, Prod.mk.injEq,
      and_true] at h
    subst h
    exact ⟨fun _ => rfl, fun _ => rfl, fun _ => rfl, fun _ => rfl,
      fun _ => rfl, fun _ => rfl⟩
  · cases hp1 : parse_u64 t1 with
    | none => simp [procstat.parseOptFields, procstat.readOpt, hp1] at h
    | some v1 =>
      simp only [procstat.parseOptFields, procstat.readOpt, hp1,
        Prod.mk.injEq, and_true] at h
      subst h
      exact ⟨fun hl => by simp at hl, fun _ => rfl, fun _ => rfl,
        fun _ => rfl, fun _ => rfl, fun _ => rfl⟩
  · cases hp1 : parse_u64 t1 with
    | none => simp [procstat.parseOptFields, procstat.readOpt, hp1] at h
    | some v1 =>
      cases hp2 : parse_u64 t2 with
      | none => simp [procstat.parseOptFields, procstat.readOpt, hp1, hp2] at h
      | some v2 =>
        simp only [procstat.parseOptFields, procstat.readOpt, hp1, hp2,
          Prod.mk.injEq, and_true] at h
        subst h
        exact ⟨fun hl => by simp at hl, fun hl => by simp at hl,
          fun _ => rfl, fun _ => rfl, fun _ => rfl, fun _ => rfl⟩
  · cases hp1 : parse_u64 t1 with
    | none => simp [procstat.parseOptFields, procstat.readOpt, hp1] at h
    | some v1 =>
      cases hp2 : parse_u64 t2 with
      | none => simp [procstat.parseOptFields, procstat.readOpt, hp1, hp2] at h
      | some v2 =>
        cases hp3 : parse_u64 t3 with
        | none =>
          simp [procstat.parseOptFields, procstat.readOpt, hp1, hp2, hp3] at h
        | some v3 =>
          simp only [procstat.parseOptFields, procstat.readOpt, hp1, hp2, hp3,
            Prod.mk.injEq, and_true] at h
          subst h
          exact ⟨fun hl => by simp at hl, fun hl => by simp at hl,
            fun hl => by simp at hl, fun _ => rfl, fun _ => rfl, fun _ => rfl⟩
  · cases hp1 : parse_u64 t1 with
    | none => simp [procstat.parseOptFields, procstat.readOpt, hp1] at h
    | some v1 =>
      cases hp2 : parse_u64 t2 with
      | none => simp [procstat.parseOptFields, procstat.readOpt, hp1, hp2] at h
      | some v2 =>
        cases hp3 : parse_u64 t3 with
        | none =>
          simp [procstat.parseOptFields, procstat.readOpt, hp1, hp2, hp3] at h
        | some v3 =>
          cases hp4 : parse_u64 t4 with
          | none =>
            simp [procstat.parseOptFields, procstat.readOpt,
              hp1, hp2, hp3, hp4] at h
          | some v4 =>
            simp only [procstat.parseOptFields, procstat.readOpt,
              hp1, hp2, hp3, hp4, Prod.mk.injEq, and_true] at h
            subst h
            exact ⟨fun hl => by simp at hl, fun hl => by simp at hl,
              fun hl => by simp at hl, fun hl => by simp at hl,
              fun _ => rfl, fun _ => rfl⟩
  · cases hp1 : parse_u64 t1 with
    | none => simp [procstat.parseOptFields, procstat.readOpt, hp1] at h
    | some v1 =>
      cases hp2 : parse_u64 t2 with
      | none => simp [procstat.parseOptFields, procstat.readOpt, hp1, hp2] at h
      | some v2 =>
        cases hp3 : parse_u64 t3 with
        | none =>
          simp [procstat.parseOptFields, procstat.readOpt, hp1, hp2, hp3] at h
        | some v3 =>
          cases hp4 : parse_u64 t4 with
          | none =>
            simp [procstat.parseOptFields, procstat.readOpt,
              hp1, hp2, hp3, hp4] at h
          | some v4 =>
            cases hp5 : parse_u64 t5 with
            | none =>
              simp [procstat.parseOptFields, procstat.readOpt,
                hp1, hp2, hp3, hp4, hp5] at h
            | some v5 =>
              simp only [procstat.parseOptFields, procstat.readOpt,
                hp1, hp2, hp3, hp4, hp5, Prod.mk.injEq, and_true] at h
              subst h
              exact ⟨fun hl => by simp at hl, fun hl => by simp at hl,
                fun hl => by simp at hl, fun hl => by simp at hl,
                fun hl => by simp at hl, fun _ => rfl⟩
  · refine ⟨fun hl => ?_, fun hl => ?_, fun hl => ?_, fun hl => ?_,
      fun hl => ?_, fun hl => ?_⟩ <;>
    · exfalso
      simp only [List.length_cons] at hl
      omega

/-! ### Claim theorems -/

/-- C2: for every store state and clock value, a failed underlying read makes
`StatsDelta::update` return that error and leave both generations, the
newer-flag, the timestamp and the duration exactly as they were; a successful
read overwrites only the currently-older generation with the fresh snapshot,
flips the newer-flag, sets the duration to `now` minus the previous
timestamp, and sets the timestamp to `now`. -/
theorem statsDelta_update_spec :
    ∀ (T E : Type) (s : stats.StatsDelta T) (now : Nat),
      (∀ e : E, s.update (.error e) now = (s, .error e)) ∧
      (∀ t : T,
        (s.update (Except.ok t : Except E T) now).2 = .ok () ∧
        ((s.update (Except.ok t : Except E T) now).1).a = cond s.a_newer s.a t ∧
        ((s.update (Except.ok t : Except E T) now).1).b = cond s.a_newer t s.b ∧
        ((s.update (Except.ok t : Except E T) now).1).a_newer = !s.a_newer ∧
        ((s.update (Except.ok t : Except E T) now).1).duration = now - s.timestamp ∧
        ((s.update (Except.ok t : Except E T) now).1).timestamp = now) := by
  intro T E s now
  refine ⟨fun e => rfl, fun t => ?_⟩
  cases h : s.a_newer <;>
    simp [stats.StatsDelta.update, h]

/-- C3: a `StatsDelta` store always holds exactly its two generations `a` and
`b` with exactly one marked newer, and after any sequence of refresh calls
(each succeeding or failing) `get_new_and_old` returns the newer-labelled and
the older-labelled generation, two distinct generations, never the same one
twice. -/
theorem statsDelta_generations_distinct :
    ∀ (T E : Type) (s0 : stats.StatsDelta T)
      (evs : List (Except E T × Nat)),
      (s0.runUpdates evs).newGen ≠ (s0.runUpdates evs).oldGen ∧
      (s0.runUpdates evs).get_new_and_old =
        ((s0.runUpdates evs).genValue (s0.runUpdates evs).newGen,
         (s0.runUpdates evs).genValue (s0.runUpdates evs).oldGen) ∧
      (((s0.runUpdates evs).newGen = .A ∧ (s0.runUpdates evs).oldGen = .B) ∨
       ((s0.runUpdates evs).newGen = .B ∧ (s0.runUpdates evs).oldGen = .A)) := by
  intro T E s0 evs
  cases h : (s0.runUpdates evs).a_newer <;>
    simp [stats.StatsDelta.newGen, stats.StatsDelta.oldGen,
      stats.StatsDelta.genValue, stats.StatsDelta.get_new_and_old, h]

/-- C1: evaluation of `AllStats::update` (the registry's refresh-all) at a
registry where every store, the three pressure stores included, has been
created and every source has fresh data, with the proc read failing: the
failing proc read is logged, not propagated, and does not prevent the disk,
net and mem stores from being refreshed (their timestamp advances to the
tick's clock value 5) — but no refresh is ever invoked on the three created
pressure stores, whose generations and timestamp remain exactly as before
the tick, contrary to the claim that one `refresh_all` call refreshes every
created store of every counter-source type. -/
theorem allStats_update_never_refreshes_pressure :
    (stats.AllStats.update allCreatedStats tickEnv 5).cpu_pressure
        = allCreatedStats.cpu_pressure ∧
    (stats.AllStats.update allCreatedStats tickEnv 5).io_pressure
        = allCreatedStats.io_pressure ∧
    (stats.AllStats.update allCreatedStats tickEnv 5).mem_pressure
        = allCreatedStats.mem_pressure ∧
    allCreatedStats.cpu_pressure ≠ none ∧
    ((stats.AllStats.update allCreatedStats tickEnv 5).cpu_pressure.map
        (fun s => s.timestamp)) = some 0 ∧
    ((stats.AllStats.update allCreatedStats tickEnv 5).proc_stats.map
        (fun s => s.timestamp)) = some 0 ∧
    ((stats.AllStats.update allCreatedStats tickEnv 5).disk_stats.map
        (fun s => s.timestamp)) = some 5 ∧
    ((stats.AllStats.update allCreatedStats tickEnv 5).net_stats.map
        (fun s => s.timestamp)) = some 5 ∧
    ((stats.AllStats.update allCreatedStats tickEnv 5).mem_stats.map
        (fun s => s.timestamp)) = some 5 := by
  decide

/-- C4: evaluation of the block-device line parser at the claim's inputs: a
line with exactly the 11 mandatory integer fields, all well-formed, is
rejected with `MissingField` because field 15 (`ms_discarding`) is read
unconditionally even with no discards present, and a 15-field line is
likewise rejected because field 17 (`ms_flushing`) is read unconditionally —
although per the source's own comments those fields only exist since Linux
4.18 resp. 5.5; only with all 17 fields present does the line parse. -/
theorem diskStats_parse_requires_fields_15_and_17 :
    diskstats.DiskStats.parse
        ("905 0 11080 1654 213 0 1744 583 0 640 2483".data)
        = .error .MissingField ∧
    diskstats.DiskStats.parse
        ("905 0 11080 1654 213 0 1744 583 0 640 2483 0 0 0 45".data)
        = .error .MissingField ∧
    diskstats.DiskStats.parse
        ("905 0 11080 1654 213 0 1744 583 0 640 2483 0 0 0 45 0 244".data)
        = .ok { num_reads := 905, num_reads_merged := 0
                num_sectors_read := 11080, num_writes := 213
                num_writes_merged := 0, num_sectors_written := 1744
                num_discards := 0, num_discards_merged := 0
                num_sectors_discarded := 0, num_flushes := 0
                ms_reading := 1654, ms_writing := 583, iops_in_progress := 0
                ms_doing_io := 640, weighted_ms_doing_io := 2483
                ms_discarding := 45, ms_flushing := 244 } := by
  refine ⟨rfl, rfl, rfl⟩

/-- C6 counterexample: the claim's success condition — the file can be opened
and at most `max+1` bytes are available — is not sufficient: a 1-char file
read with `max_size = 0` satisfies it (1 ≤ 0 + 1), yet the reader fails. -/
theorem read_limit_claim_counterexample :
    ¬ (∀ (file : Option (List Char)) (max_size : Nat) (contents : List Char),
        file = some contents → contents.length ≤ max_size + 1 →
        read_to_string_with_limit file max_size = .ok contents) := by
  intro h
  exact absurd (h (some ['a']) 0 ['a'] rfl (by decide)) (by decide)

/-- C6 amended: the reader succeeds with the file's full contents exactly
when the file can be opened and at most `max_size` bytes are available; it
fails with the open I/O error when the file cannot be opened, and with the
distinct too-large condition exactly when more than `max_size` bytes are
available (it reads up to `max_size + 1` bytes to detect this). -/
theorem read_limit_spec :
    ∀ (file : Option (List Char)) (max_size : Nat),
      (file = none →
        read_to_string_with_limit file max_size = .error .osOpenError) ∧
      (∀ contents, file = some contents →
        (contents.length ≤ max_size →
          read_to_string_with_limit file max_size = .ok contents) ∧
        (max_size < contents.length →
          read_to_string_with_limit file max_size
            = .error .invalidDataTooLarge)) := by
  intro file max_size
  constructor
  · rintro rfl; rfl
  · rintro contents rfl
    constructor
    · intro hle
      have ht : contents.take (max_size + 1) = contents :=
        List.take_of_length_le (by omega)
      simp only [read_to_string_with_limit, ht]
      rw [if_neg (by omega)]
    · intro hgt
      have hl : (contents.take (max_size + 1)).length = max_size + 1 := by
        rw [List.length_take]; omega
      simp only [read_to_string_with_limit, hl]
      rw [if_pos (by omega)]

/-- C6 amended, witness: the three cases at concrete inputs. -/
theorem read_limit_spec_w :
    read_to_string_with_limit (some ['a', 'b']) 2 = .ok ['a', 'b'] ∧
    read_to_string_with_limit (some ['a', 'b', 'c']) 2
      = .error .invalidDataTooLarge ∧
    read_to_string_with_limit none 2 = .error .osOpenError :=
  ⟨((read_limit_spec (some ['a', 'b']) 2).2 ['a', 'b'] rfl).1 (by decide),
   ((read_limit_spec (some ['a', 'b', 'c']) 2).2 ['a', 'b', 'c'] rfl).2
     (by decide),
   (read_limit_spec none 2).1 rfl⟩

/-- C8 counterexample: with overflow checks enabled — the Rust default for
the dev and test profiles, i.e. exactly the test-harness setting the claim
appeals to — the tick subtraction at new = 0, old = 1 panics (modelled
`none`) instead of yielding the wraparound value `2^64 - 1`. -/
theorem ticks_sub_checked_underflow :
    Ticks.sub true 0 1 = none ∧ Ticks.sub true 0 1 ≠ some (2 ^ 64 - 1) := by
  exact ⟨rfl, by decide⟩

/-- C8 amended: the program's counter subtractions (`Ticks` ticks, received
bytes, milliseconds doing I/O) are exact and cannot overflow or panic when
new ≥ old; when new < old the outcome is defined in every build — it wraps
modulo the integer width when overflow checks are off (the release default)
and panics when they are on (the dev/test default) — and is never undefined
behavior. -/
theorem rust_unsigned_sub_spec :
    ∀ (checks : Bool) (w a b : Nat),
      (b ≤ a → rustSubU checks w a b = some (a - b)) ∧
      (a < b → checks = false → rustSubU checks w a b = some (wrapSub w a b)) ∧
      (a < b → checks = true → rustSubU checks w a b = none) ∧
      Ticks.sub checks a b = rustSubU checks 64 a b ∧
      (∀ (n o : net.InterfaceStats),
        netRxBytesDelta checks n o = rustSubU checks 64 n.rx_bytes o.rx_bytes) ∧
      (∀ (n o : diskstats.DiskStats),
        msDoingIoDelta checks n o
          = rustSubU checks 32 n.ms_doing_io o.ms_doing_io) := by
  intro checks w a b
  refine ⟨fun h => ?_, fun h hc => ?_, fun h hc => ?_, rfl,
    fun n o => rfl, fun n o => rfl⟩
  · simp [rustSubU, h]
  · subst hc; simp [rustSubU, Nat.not_le.mpr h]
  · subst hc; simp [rustSubU, Nat.not_le.mpr h]

/-- C8 amended, witness: concrete subtractions in both build settings. -/
theorem rust_unsigned_sub_spec_w :
    rustSubU true 64 5 3 = some 2 ∧
    rustSubU false 64 3 5 = some (wrapSub 64 3 5) ∧
    rustSubU true 64 3 5 = none := by
  refine ⟨?_, ?_, ?_⟩
  · have h := (rust_unsigned_sub_spec true 64 5 3).1 (by decide)
    simpa using h
  · exact (rust_unsigned_sub_spec false 64 3 5).2.1 (by decide) rfl
  · exact (rust_unsigned_sub_spec true 64 3 5).2.2.1 (by decide) rfl

/-- C10: a pressure-file text containing no line prefixed `some ` and no line
prefixed `full ` — the empty string included — parses successfully with both
stall counters 0; lines with any other prefix are ignored even when they
carry no `total=` token. -/
theorem pressure_parse_no_significant_lines_ok :
    ∀ data : String,
      (∀ l, l ∈ splitChar '\n' data.data →
        stripPre "some ".data l = none ∧ stripPre "full ".data l = none) →
      pressure.parse_pressure_data data = .ok (0, 0) := by
  intro data h
  exact parsePressureLines_ok_of_insignificant _ 0 0 h

/-- C10 witness: the empty file and a file of ignored lines without any
`total=` token. -/
theorem pressure_parse_no_significant_lines_ok_w :
    pressure.parse_pressure_data "" = .ok (0, 0) ∧
    pressure.parse_pressure_data "foo bar\nfullx lacking" = .ok (0, 0) := by
  constructor
  · exact pressure_parse_no_significant_lines_ok "" (by decide)
  · exact pressure_parse_no_significant_lines_ok "foo bar\nfullx lacking"
      (by decide)

/-- C5: a significant pressure line (prefixed `some ` or `full `) lacking an
embedded `total=` token makes the whole pressure parse return an error,
whereas in the other four parsers a malformed line never fails the whole
parse: the disk, net and memory per-line loops skip a failing line with no
effect at all on the snapshot, and the procstat loop always continues with
the remaining lines from whatever state the line left. -/
theorem pressure_error_fatal_others_tolerant :
    (∀ data : String,
      (∃ l, l ∈ splitChar '\n' data.data ∧ pressure.badSigLine l = true) →
      isErr (pressure.parse_pressure_data data) = true) ∧
    (∀ (d : diskstats.ProcDiskStats) (l : List Char) (ls : List (List Char))
      (e : diskstats.ParseError), diskstats.ProcDiskStats.parse_line d l = .error e →
      parseLoop diskstats.ProcDiskStats.parse_line d (l :: ls)
        = parseLoop diskstats.ProcDiskStats.parse_line d ls) ∧
    (∀ (s : net.NetDevStats) (l : List Char) (ls : List (List Char))
      (e : net.ParseError), net.NetDevStats.parse_line s l = .error e →
      parseLoop net.NetDevStats.parse_line s (l :: ls)
        = parseLoop net.NetDevStats.parse_line s ls) ∧
    (∀ (m : meminfo.MemoryStats) (l : List Char) (ls : List (List Char))
      (e : meminfo.ParseError), meminfo.MemoryStats.parse_line m l = .error e →
      parseLoop meminfo.MemoryStats.parse_line m (l :: ls)
        = parseLoop meminfo.MemoryStats.parse_line m ls) ∧
    (∀ (ps : procstat.ProcStat) (l : List Char) (ls : List (List Char)),
      procstat.ProcStat.parseLines ps (l :: ls)
        = procstat.ProcStat.parseLines (procstat.ProcStat.parse_line ps l).1 ls) := by
  refine ⟨?_, ?_, ?_, ?_, ?_⟩
  · rintro data ⟨l, hl, hbad⟩
    exact parsePressureLines_error_of_bad _ 0 0 l hl hbad
  · intro d l ls e h
    exact parseLoop_skip _ d l ls e h
  · intro s l ls e h
    exact parseLoop_skip _ s l ls e h
  · intro m l ls e h
    exact parseLoop_skip _ m l ls e h
  · intro ps l ls
    rfl

/-- C5 witness: every fallible part exercised at concrete inputs — a
significant pressure line without `total=` fails the whole parse; a malformed
disk, net resp. memory line is skipped without effect. -/
theorem pressure_error_fatal_others_tolerant_w :
    isErr (pressure.parse_pressure_data "some x") = true ∧
    parseLoop diskstats.ProcDiskStats.parse_line ⟨[]⟩ ["x".data]
      = parseLoop diskstats.ProcDiskStats.parse_line ⟨[]⟩ [] ∧
    parseLoop net.NetDevStats.parse_line ⟨[]⟩ ["x".data]
      = parseLoop net.NetDevStats.parse_line ⟨[]⟩ [] ∧
    parseLoop meminfo.MemoryStats.parse_line meminfo.MemoryStats.zero
        ["MemTotal: bogus kB".data]
      = parseLoop meminfo.MemoryStats.parse_line meminfo.MemoryStats.zero [] := by
  refine ⟨?_, ?_, ?_, ?_⟩
  · exact pressure_error_fatal_others_tolerant.1 "some x"
      ⟨"some x".data, by decide⟩
  · exact pressure_error_fatal_others_tolerant.2.1 ⟨[]⟩ "x".data []
      .MissingField (by decide)
  · exact pressure_error_fatal_others_tolerant.2.2.1 ⟨[]⟩ "x".data []
      .MissingField (by decide)
  · exact pressure_error_fatal_others_tolerant.2.2.2.1 meminfo.MemoryStats.zero
      "MemTotal: bogus kB".data [] .ParseIntError (by decide)

/-- C7: for a processor-tick record, parsing fails whenever any of the first
four tick fields is absent (fewer than four tokens) or non-numeric; each of
fields 5-10 takes the value 0 when absent (whenever the parse succeeds, a
field beyond the token count is 0, and with exactly four tokens all six are
0); `CpuStats::parse` is the field chain applied to the space-split line; and
a line with an unrecognized prefix is accepted with the snapshot unchanged,
so it never fails the snapshot. -/
theorem cpu_line_field_policy :
    (∀ (s : procstat.CpuStats) (toks : List (List Char)),
      toks.length < 4 → (procstat.CpuStats.parseToks s toks).2 ≠ none) ∧
    (∀ (s : procstat.CpuStats) (t1 t2 t3 t4 : List Char)
      (rest : List (List Char)),
      (parse_u64 t1 = none ∨ parse_u64 t2 = none ∨ parse_u64 t3 = none ∨
        parse_u64 t4 = none) →
      (procstat.CpuStats.parseToks s (t1 :: t2 :: t3 :: t4 :: rest)).2 ≠ none) ∧
    (∀ (s : procstat.CpuStats) (t1 t2 t3 t4 : List Char) (v1 v2 v3 v4 : Nat),
      parse_u64 t1 = some v1 → parse_u64 t2 = some v2 →
      parse_u64 t3 = some v3 → parse_u64 t4 = some v4 →
      procstat.CpuStats.parseToks s [t1, t2, t3, t4]
        = (⟨v1, v2, v3, v4, 0, 0, 0, 0, 0, 0⟩, none)) ∧
    (∀ (s r : procstat.CpuStats) (toks : List (List Char)),
      procstat.CpuStats.parseToks s toks = (r, none) →
      (toks.length ≤ 4 → r.iowait = 0) ∧ (toks.length ≤ 5 → r.irq = 0) ∧
      (toks.length ≤ 6 → r.softirq = 0) ∧ (toks.length ≤ 7 → r.steal = 0) ∧
      (toks.length ≤ 8 → r.guest = 0) ∧ (toks.length ≤ 9 → r.guest_nice = 0)) ∧
    (∀ (s : procstat.CpuStats) (line : List Char),
      procstat.CpuStats.parse s line
        = procstat.CpuStats.parseToks s (splitChar ' ' line)) ∧
    (∀ (ps : procstat.ProcStat) (line : List Char),
      stripPre "cpu".data line = none → stripPre "btime ".data line = none →
      stripPre "ctxt ".data line = none →
      stripPre "processes ".data line = none →
      stripPre "procs_running ".data line = none →
      stripPre "procs_blocked ".data line = none →
      procstat.ProcStat.parse_line ps line = (ps, none) ∧
      (∀ ls, procstat.ProcStat.parseLines ps (line :: ls)
        = procstat.ProcStat.parseLines ps ls)) := by
  refine ⟨?_, ?_, ?_, ?_, fun s line => rfl, ?_⟩
  · -- fewer than four tokens: one of the four `readMand` hits the end
    intro s toks hlen
    rcases toks with _ | ⟨t1, _ | ⟨t2, _ | ⟨t3, _ | ⟨t4, rest⟩⟩⟩⟩
    · simp [procstat.CpuStats.parseToks, procstat.readMand]
    · cases hp1 : parse_u64 t1 <;>
        simp [procstat.CpuStats.parseToks, procstat.readMand, hp1]
    · cases hp1 : parse_u64 t1 <;> cases hp2 : parse_u64 t2 <;>
        simp [procstat.CpuStats.parseToks, procstat.readMand, hp1, hp2]
    · cases hp1 : parse_u64 t1 <;> cases hp2 : parse_u64 t2 <;>
        cases hp3 : parse_u64 t3 <;>
        simp [procstat.CpuStats.parseToks, procstat.readMand, hp1, hp2, hp3]
    · exfalso
      simp only [List.length_cons] at hlen
      omega
  · -- a non-numeric token among the first four: some `readMand` rejects it
    intro s t1 t2 t3 t4 rest h
    cases hp1 : parse_u64 t1 <;> cases hp2 : parse_u64 t2 <;>
      cases hp3 : parse_u64 t3 <;> cases hp4 : parse_u64 t4 <;>
      simp_all [procstat.CpuStats.parseToks, procstat.readMand]
  · -- exactly four numeric tokens: fields 5-10 all default to zero
    intro s t1 t2 t3 t4 v1 v2 v3 v4 h1 h2 h3 h4
    simp [procstat.CpuStats.parseToks, procstat.readMand,
      procstat.parseOptFields, procstat.readOpt, h1, h2, h3, h4]
  · -- a successful parse leaves every absent optional field at zero
    intro s r toks h
    rcases toks with _ | ⟨t1, _ | ⟨t2, _ | ⟨t3, _ | ⟨t4, ts⟩⟩⟩⟩
    · simp [procstat.CpuStats.parseToks, procstat.readMand] at h
    · cases hp1 : parse_u64 t1 <;>
        simp [procstat.CpuStats.parseToks, procstat.readMand, hp1] at h
    · cases hp1 : parse_u64 t1 <;> cases hp2 : parse_u64 t2 <;>
        simp [procstat.CpuStats.parseToks, procstat.readMand, hp1, hp2] at h
    · cases hp1 : parse_u64 t1 <;> cases hp2 : parse_u64 t2 <;>
        cases hp3 : parse_u64 t3 <;>
        simp [procstat.CpuStats.parseToks, procstat.readMand,
          hp1, hp2, hp3] at h
    · cases hp1 : parse_u64 t1 with
      | none => simp [procstat.CpuStats.parseToks, procstat.readMand, hp1] at h
      | some v1 =>
        cases hp2 : parse_u64 t2 with
        | none =>
          simp [procstat.CpuStats.parseToks, procstat.readMand, hp1, hp2] at h
        | some v2 =>
          cases hp3 : parse_u64 t3 with
          | none =>
            simp [procstat.CpuStats.parseToks, procstat.readMand,
              hp1, hp2, hp3] at h
          | some v3 =>
            cases hp4 : parse_u64 t4 with
            | none =>
              simp [procstat.CpuStats.parseToks, procstat.readMand,
                hp1, hp2, hp3, hp4] at h
            | some v4 =>
              simp only [procstat.CpuStats.parseToks, procstat.readMand,
                hp1, hp2, hp3, hp4] at h
              have hz := parseOptFields_suffix_zero _ ts r h
              refine ⟨fun hl => hz.1 ?_, fun hl => hz.2.1 ?_,
                fun hl => hz.2.2.1 ?_, fun hl => hz.2.2.2.1 ?_,
                fun hl => hz.2.2.2.2.1 ?_, fun hl => hz.2.2.2.2.2 ?_⟩ <;>
              · simp only [List.length_cons] at hl ⊢
                omega
  · -- unrecognized prefixes are ignored and the loop moves on unchanged
    intro ps line h1 h2 h3 h4 h5 h6
    have hpl : procstat.ProcStat.parse_line ps line = (ps, none) := by
      simp only [procstat.ProcStat.parse_line, h1, h2, h3, h4, h5, h6]
    refine ⟨hpl, fun ls => ?_⟩
    simp only [procstat.ProcStat.parseLines, hpl]

/-- C7 witness: every part exercised at concrete inputs — an empty token
list, a non-numeric second token, the four-token line `1 2 3 4`, an
absent-fields success, and the ignored line `intr 5 3`. -/
theorem cpu_line_field_policy_w :
    (procstat.CpuStats.parseToks procstat.CpuStats.zero []).2 ≠ none ∧
    (procstat.CpuStats.parseToks procstat.CpuStats.zero
      ["1".data, "x".data, "3".data, "4".data]).2 ≠ none ∧
    procstat.CpuStats.parseToks procstat.CpuStats.zero
        ["1".data, "2".data, "3".data, "4".data]
      = (⟨1, 2, 3, 4, 0, 0, 0, 0, 0, 0⟩, none) ∧
    (⟨1, 2, 3, 4, 5, 0, 0, 0, 0, 0⟩ : procstat.CpuStats).irq = 0 ∧
    procstat.ProcStat.parse_line procstat.ProcStat.new_zero "intr 5 3".data
      = (procstat.ProcStat.new_zero, none) := by
  refine ⟨?_, ?_, ?_, ?_, ?_⟩
  · exact cpu_line_field_policy.1 procstat.CpuStats.zero [] (by decide)
  · exact cpu_line_field_policy.2.1 procstat.CpuStats.zero
      "1".data "x".data "3".data "4".data [] (Or.inr (Or.inl (by decide)))
  · exact cpu_line_field_policy.2.2.1 procstat.CpuStats.zero
      "1".data "2".data "3".data "4".data 1 2 3 4
      (by decide) (by decide) (by decide) (by decide)
  · exact (cpu_line_field_policy.2.2.2.1 procstat.CpuStats.zero
      ⟨1, 2, 3, 4, 5, 0, 0, 0, 0, 0⟩
      ["1".data, "2".data, "3".data, "4".data, "5".data]
      (by decide)).2.1 (by decide)
  · exact (cpu_line_field_policy.2.2.2.2.2 procstat.ProcStat.new_zero
      "intr 5 3".data (by decide) (by decide) (by decide) (by decide)
      (by decide) (by decide)).1

/-- C9 counterexample: parsing the single-line text `cpu  5 x` — whose only
line fails, `x` not being numeric, so no line of the input is successfully
parsed — leaves the aggregate user tick field at 5 instead of its zero
default: the processor-tick parser assigns fields in place before the line's
error is discovered. -/
theorem procstat_partial_assignment :
    (procstat.ProcStat.parse "cpu  5 x").cpu.user = 5 ∧
    (procstat.ProcStat.parse_line procstat.ProcStat.new_zero
        "cpu  5 x".data).2 = some .ParseIntError :=
  ⟨rfl, rfl⟩

/-- C9 amended: the four parse functions are total by construction — every
input yields a snapshot, errors being confined to the per-line parsers — and
for the block-device, network-interface and memory-summary parsers a line
that fails to parse contributes nothing to the snapshot (deleting it from
the input leaves the result unchanged), so every field not set by a
successfully parsed line keeps its zero/default value; the processor-tick
parser also never fails the snapshot — it always continues with the
remaining lines — but a failing cpu line may leave behind the field
assignments made before its error was detected. -/
theorem parsers_total_and_tolerant :
    (∀ (d : diskstats.ProcDiskStats) (pre : List (List Char)) (l : List Char)
      (post : List (List Char)) (e : diskstats.ParseError),
      diskstats.ProcDiskStats.parse_line
          (parseLoop diskstats.ProcDiskStats.parse_line d pre) l = .error e →
      parseLoop diskstats.ProcDiskStats.parse_line d (pre ++ l :: post)
        = parseLoop diskstats.ProcDiskStats.parse_line d (pre ++ post)) ∧
    (∀ (s : net.NetDevStats) (pre : List (List Char)) (l : List Char)
      (post : List (List Char)) (e : net.ParseError),
      net.NetDevStats.parse_line
          (parseLoop net.NetDevStats.parse_line s pre) l = .error e →
      parseLoop net.NetDevStats.parse_line s (pre ++ l :: post)
        = parseLoop net.NetDevStats.parse_line s (pre ++ post)) ∧
    (∀ (m : meminfo.MemoryStats) (pre : List (List Char)) (l : List Char)
      (post : List (List Char)) (e : meminfo.ParseError),
      meminfo.MemoryStats.parse_line
          (parseLoop meminfo.MemoryStats.parse_line m pre) l = .error e →
      parseLoop meminfo.MemoryStats.parse_line m (pre ++ l :: post)
        = parseLoop meminfo.MemoryStats.parse_line m (pre ++ post)) ∧
    (∀ data : String, diskstats.ProcDiskStats.parse data
      = parseLoop diskstats.ProcDiskStats.parse_line ⟨[]⟩
          (splitChar '\n' data.data)) ∧
    (∀ data : String, net.NetDevStats.parse data
      = parseLoop net.NetDevStats.parse_line ⟨[]⟩
          ((splitChar '\n' data.data).drop 2)) ∧
    (∀ data : String, meminfo.MemoryStats.parse data
      = parseLoop meminfo.MemoryStats.parse_line meminfo.MemoryStats.zero
          (splitChar '\n' data.data)) ∧
    (∀ data : String, procstat.ProcStat.parse data
      = procstat.ProcStat.parseLines procstat.ProcStat.new_zero
          (splitChar '\n' data.data)) ∧
    (∀ (ps : procstat.ProcStat) (l : List Char) (ls : List (List Char)),
      procstat.ProcStat.parseLines ps (l :: ls)
        = procstat.ProcStat.parseLines (procstat.ProcStat.parse_line ps l).1 ls) := by
  refine ⟨?_, ?_, ?_, fun data => rfl, fun data => rfl, fun data => rfl,
    fun data => rfl, fun ps l ls => rfl⟩
  · intro d pre l post e h
    rw [parseLoop_append, parseLoop_append]
    exact parseLoop_skip _ _ l post e h
  · intro s pre l post e h
    rw [parseLoop_append, parseLoop_append]
    exact parseLoop_skip _ _ l post e h
  · intro m pre l post e h
    rw [parseLoop_append, parseLoop_append]
    exact parseLoop_skip _ _ l post e h

/-- C9 amended, witness: a malformed line deleted from the middle of each
multi-entity input leaves the snapshot unchanged. -/
theorem parsers_total_and_tolerant_w :
    parseLoop diskstats.ProcDiskStats.parse_line ⟨[]⟩ ["1 2 3".data]
      = parseLoop diskstats.ProcDiskStats.parse_line ⟨[]⟩ [] ∧
    parseLoop net.NetDevStats.parse_line ⟨[]⟩ ["eth0 no colon".data]
      = parseLoop net.NetDevStats.parse_line ⟨[]⟩ [] ∧
    parseLoop meminfo.MemoryStats.parse_line meminfo.MemoryStats.zero
        ["SwapFree: 12".data]
      = parseLoop meminfo.MemoryStats.parse_line meminfo.MemoryStats.zero [] := by
  refine ⟨?_, ?_, ?_⟩
  · exact parsers_total_and_tolerant.1 ⟨[]⟩ [] "1 2 3".data []
      .MissingField (by decide)
  · exact parsers_total_and_tolerant.2.1 ⟨[]⟩ [] "eth0 no colon".data []
      .MissingField (by decide)
  · exact parsers_total_and_tolerant.2.2.1 meminfo.MemoryStats.zero []
      "SwapFree: 12".data [] .UnexpectedData (by decide)

end Waymon
